import Mathlib

/-
Verification development for the laserlib repository.

The subject is the multi-pass raster geometry and fusion engine
(Config / SRRConfig / KrissKrossConfig, KrissKrossData, KrissKross) and two
pieces of plain source code (io/npz.py save, laserlib/data.py LaserData.get).

The geometry and fusion classes themselves are not present under src/ (only
their tests are), so they are modelled from the specification, with the
concrete values pinned by the tests in src/tests/test_config.py and
src/tests/test_krisskross.py, which are part of the repository source.

Physical quantities (spot size, speed, dwell time, warmup time) are modelled
as rationals: every value exercised by the tests is an exact binary fraction,
so rational arithmetic is an exact model of the Python float arithmetic used
on these inputs.
-/

namespace Laserlib

/-- Modelled from the spec: base scan geometry (class Config in pew,
LaserConfig in laserlib; the file is missing from src/). Attributes are
spot size, scan speed and per-sample dwell time. -/
structure Config where
  spotsize : ℚ
  speed : ℚ
  scantime : ℚ

/-- Modelled from the spec: pixel width is scan_speed * dwell_time. -/
def Config.get_pixel_width (c : Config) : ℚ := c.speed * c.scantime

/-- Modelled from the spec: pixel height is the spot size. -/
def Config.get_pixel_height (c : Config) : ℚ := c.spotsize

/-- Modelled from the spec: physical bounding box of an array of the given
(rows, cols) shape: (0, cols * pixel_width, 0, rows * pixel_height). -/
def Config.data_extent (c : Config) (shape : ℕ × ℕ) : ℚ × ℚ × ℚ × ℚ :=
  (0, shape.2 * c.get_pixel_width, 0, shape.1 * c.get_pixel_height)

/-- Modelled from the spec: multi-pass geometry (SRRConfig in pew,
KrissKrossConfig in laserlib; the file is missing from src/).
subpixel_offsets stores the offset numerators over the common denominator
subpixel_size, as established by the subpixel-offset setter below; the
magnification (pass count) is set at construction. -/
structure SRRConfig extends Config where
  warmup : ℚ
  magnification : ℚ
  subpixel_offsets : List ℤ
  subpixel_size : ℕ

/-- Modelled from the spec: warmup samples is round(warmup_time / dwell_time),
clamped to be non-negative. -/
def SRRConfig.warmup_samples (c : SRRConfig) : ℤ :=
  max 0 (round (c.warmup / c.scantime))

/-- Modelled from the spec: fused pixel width when layer is omitted is the
spot size divided by the pass count (the tests pin the fused size of
SRRConfig(10,10,0.5) at 5.0 x 5.0); for a given layer, the base width for
even-indexed layers and the base height for odd-indexed layers. -/
def SRRConfig.get_pixel_width (c : SRRConfig) (layer : Option ℕ) : ℚ :=
  match layer with
  | none => c.spotsize / c.magnification
  | some l =>
    if l % 2 = 0 then c.toConfig.get_pixel_width else c.toConfig.get_pixel_height

/-- Modelled from the spec: fused pixel height when layer is omitted is the
spot size divided by the pass count; for a given layer, the base height for
even-indexed layers and the base width for odd-indexed layers. -/
def SRRConfig.get_pixel_height (c : SRRConfig) (layer : Option ℕ) : ℚ :=
  match layer with
  | none => c.spotsize / c.magnification
  | some l =>
    if l % 2 = 0 then c.toConfig.get_pixel_height else c.toConfig.get_pixel_width

/-- Modelled from the spec: extent of the fused image when layer is omitted,
its origin shifted by warmup_samples pixels along both axes (the tests pin
data_extent((10,20)) of SRRConfig(10,10,0.5,warmup=10) at (100,200,100,150));
extent of a single untrimmed pass, with no warmup shift, when layer is given. -/
def SRRConfig.data_extent (c : SRRConfig) (shape : ℕ × ℕ) (layer : Option ℕ) :
    ℚ × ℚ × ℚ × ℚ :=
  match layer with
  | none =>
    let px := c.get_pixel_width none
    let py := c.get_pixel_height none
    let w : ℚ := (c.warmup_samples : ℚ)
    (w * px, w * px + shape.2 * px, w * py, w * py + shape.1 * py)
  | some l =>
    (0, shape.2 * c.get_pixel_width (some l), 0, shape.1 * c.get_pixel_height (some l))

/-- Modelled from the spec: a Python value assigned to the subpixel_offsets
property, as far as the validation is concerned: an integer or a nested list. -/
inductive PyVal where
  | int : ℤ → PyVal
  | list : List PyVal → PyVal

/-- Modelled from the spec: view of a Python value as one 2-element integer
pair, or none when it is not one. -/
def asPair : PyVal → Option (ℤ × ℤ)
  | PyVal.list [PyVal.int a, PyVal.int b] => some (a, b)
  | _ => none

/-- Modelled from the spec: view of a list of Python values as a list of
2-element integer pairs, or none when some element is not such a pair. -/
def asPairList : List PyVal → Option (List (ℤ × ℤ))
  | [] => some []
  | x :: xs =>
    match asPair x, asPairList xs with
    | some p, some ps => some (p :: ps)
    | _, _ => none

/-- Modelled from the spec: view of a Python value as a sequence of 2-element
integer pairs, or none when it is not one. -/
def asPairs : PyVal → Option (List (ℤ × ℤ))
  | PyVal.list xs => asPairList xs
  | _ => none

/-- Boolean test for one 2-element integer pair. -/
def isPair : PyVal → Bool
  | PyVal.list [PyVal.int _, PyVal.int _] => true
  | _ => false

/-- Boolean test for a sequence of 2-element integer pairs. -/
def isPairSeq : PyVal → Bool
  | PyVal.list xs => xs.all isPair
  | _ => false

/-- Modelled from the spec: common denominator of a list of (numerator,
denominator) subpixel offset pairs. -/
def pairs_lcm (ps : List (ℤ × ℤ)) : ℕ :=
  ps.foldl (fun a p => Nat.lcm a p.2.natAbs) 1

/-- Modelled from the spec: the offset numerators rescaled to the common
denominator. -/
def pairs_numerators (ps : List (ℤ × ℤ)) : List ℤ :=
  let L := pairs_lcm ps
  ps.map (fun p => p.1 * ((L / p.2.natAbs : ℕ) : ℤ))

/-- Modelled from the spec: store a validated list of subpixel offset pairs,
as numerators over the common denominator. -/
def SRRConfig.with_subpixel_offsets (c : SRRConfig) (ps : List (ℤ × ℤ)) :
    SRRConfig :=
  { c with subpixel_offsets := pairs_numerators ps, subpixel_size := pairs_lcm ps }

/-- Modelled from the spec: the subpixel_offsets property setter accepts only
a sequence of 2-element integer pairs and otherwise fails with a ValueError. -/
def SRRConfig.subpixel_offsets_set (c : SRRConfig) (v : PyVal) :
    Except String SRRConfig :=
  match asPairs v with
  | none => Except.error "ValueError"
  | some ps => Except.ok (c.with_subpixel_offsets ps)

/-- Modelled from the spec: constructor of the multi-pass geometry, which
routes the given subpixel offset pairs through the offset normalisation. -/
def mkSRRConfig (spot speed st w mag : ℚ) (ps : List (ℤ × ℤ)) : SRRConfig :=
  SRRConfig.with_subpixel_offsets
    { spotsize := spot, speed := speed, scantime := st, warmup := w,
      magnification := mag, subpixel_offsets := [], subpixel_size := 1 } ps

/-- Modelled from the spec: replaces the subpixel offsets with n evenly spread
entries, stored as numerators 0..n-1 over denominator n. -/
def SRRConfig.set_equal_subpixel_offsets (c : SRRConfig) (n : ℕ) : SRRConfig :=
  { c with subpixel_offsets := (List.range n).map Int.ofNat, subpixel_size := n }

/-- Modelled from the spec: the number of subpixels overlaid per output pixel
is the pass count. -/
def SRRConfig.subpixels_per_pixel (c : SRRConfig) : ℚ := c.magnification

/-- Modelled from the spec: the subpixel offsets exposed as (numerator,
denominator) pairs over the common denominator (the stride form). -/
def SRRConfig.subpixel_offsets_get (c : SRRConfig) : List (ℤ × ℤ) :=
  c.subpixel_offsets.map (fun o => (o, (c.subpixel_size : ℤ)))

/-- A 2-dimensional numeric array: a shape plus an entry function. -/
structure Arr2 where
  rows : ℕ
  cols : ℕ
  entry : ℕ → ℕ → ℚ

/-- Transpose of a 2-dimensional array. -/
def Arr2.transpose (A : Arr2) : Arr2 :=
  { rows := A.cols, cols := A.rows, entry := fun i j => A.entry j i }

/-- Modelled from the spec: removal of the first w warmup samples along the
scan axis of a raw pass (its columns), as in the Python slice [:, w:]. -/
def Arr2.trim_warmup (A : Arr2) (w : ℕ) : Arr2 :=
  { rows := A.rows, cols := A.cols - w, entry := fun i j => A.entry i (j + w) }

/-- Modelled from the spec: a pass is trimmed of its warmup samples and
odd-indexed passes are reoriented by transposition so that all passes share
a common row/column semantic. -/
def align_layer (w : ℕ) (i : ℕ) (A : Arr2) : Arr2 :=
  let t := A.trim_warmup w
  if i % 2 = 1 then t.transpose else t

/-- All passes trimmed and reoriented. -/
def align_layers (c : SRRConfig) (ls : List Arr2) : List Arr2 :=
  ls.enum.map (fun p => align_layer c.warmup_samples.toNat p.1 p.2)

/-- Minimum of a list of naturals (0 for the empty list). -/
def natMinD (l : List ℕ) : ℕ :=
  match l with
  | [] => 0
  | x :: xs => xs.foldl Nat.min x

/-- Maximum of a list of naturals (0 for the empty list). -/
def natMaxD (l : List ℕ) : ℕ :=
  match l with
  | [] => 0
  | x :: xs => xs.foldl Nat.max x

/-- Largest subpixel offset numerator, as a natural number. -/
def maxOffsetNat (os : List ℤ) : ℕ :=
  (os.map Int.toNat).foldl Nat.max 0

/-- A 3-dimensional array of optionally missing values; none marks a cell a
pass does not cover. -/
structure Arr3 where
  rows : ℕ
  cols : ℕ
  depth : ℕ
  entry : ℕ → ℕ → ℕ → Option ℚ

/-- Modelled from the spec: the trimmed and reoriented passes cropped to the
common (r, c) grid and stacked one plane per pass. -/
def stack_layers (r c : ℕ) (a : List Arr2) : Arr3 :=
  { rows := r, cols := c, depth := a.length,
    entry := fun i j k =>
      if i < r ∧ j < c ∧ k < a.length then
        some ((a.getD k { rows := 0, cols := 0, entry := fun _ _ => 0 }).entry i j)
      else none }

/-- Modelled from the spec: subpixel interleaving. Each base pixel is
subdivided subpixel_size times along both axes and plane k is placed at its
subpixel offset; the grid grows by the largest offset, and cells a plane does
not cover are missing. -/
def subpixel_offset_expand (os : List ℤ) (s : ℕ) (A : Arr3) : Arr3 :=
  let m := maxOffsetNat os
  { rows := A.rows * s + m, cols := A.cols * s + m, depth := A.depth,
    entry := fun i j k =>
      let o := (os.getD (k % os.length) 0).toNat
      if o ≤ i ∧ i < o + A.rows * s ∧ o ≤ j ∧ j < o + A.cols * s then
        A.entry ((i - o) / s) ((j - o) / s) k
      else none }

/-- Modelled from the spec: element-wise mean across the pass axis, excluding
missing cells from each mean; cells covered by no pass become 0. -/
def flatten_mean (A : Arr3) : Arr2 :=
  { rows := A.rows, cols := A.cols,
    entry := fun i j =>
      let vs := (List.range A.depth).filterMap (fun k => A.entry i j k)
      if vs.length = 0 then 0 else vs.sum / (vs.length : ℚ) }

/-- Modelled from the spec: the fused pass stack. The passes are trimmed,
reoriented, cropped to the smallest common shape, stacked, and subpixel
interleaved (the tests pin the fused shape of passes (10,20) and (12,30)
under SRRConfig(5,10,0.5,warmup=2.5) at (21,25,2)). -/
def kk_stack (c : SRRConfig) (ls : List Arr2) : Arr3 :=
  let a := align_layers c ls
  subpixel_offset_expand c.subpixel_offsets c.subpixel_size
    (stack_layers (natMinD (a.map Arr2.rows)) (natMinD (a.map Arr2.cols)) a)

/-- Modelled from the spec: the flattened fusion, the mean across the pass
axis of the fused stack. -/
def kk_flat (c : SRRConfig) (ls : List Arr2) : Arr2 :=
  flatten_mean (kk_stack c ls)

/-- Modelled from the spec: the fusion data object holding one raw 2-D array
per pass. -/
structure KrissKrossData where
  layers : List Arr2

/-- Modelled from the spec: KrissKrossData.get returns the fused stack, or
the flattened fusion when flat is true. -/
def KrissKrossData.get (d : KrissKrossData) (c : SRRConfig) (flat : Bool) :
    Arr3 ⊕ Arr2 :=
  if flat then Sum.inr (kk_flat c d.layers) else Sum.inl (kk_stack c d.layers)

/-- Modelled from the spec: a KrissKross laser holds a multi-pass geometry and
fusion data. -/
structure KrissKross where
  config : SRRConfig
  data : KrissKrossData

/-- Modelled from the spec: the number of stored passes. -/
def KrissKross.layer_count (kk : KrissKross) : ℕ := kk.data.layers.length

/-- Modelled from the spec: the minimum trimmed-layer length implied by the
current layers, i.e. the smallest scan-axis sample count left after removing
the current warmup samples. -/
def KrissKross.min_trimmed_length (kk : KrissKross) : ℕ :=
  natMinD (kk.data.layers.map (fun A => A.cols - kk.config.warmup_samples.toNat))

/-- Modelled from the spec: check_config_valid returns true iff the candidate
pass count equals the current pass count and the candidate warmup samples do
not exceed the minimum trimmed-layer length; it is a total boolean check. -/
def KrissKross.check_config_valid (kk : KrissKross) (other : SRRConfig) : Bool :=
  decide (other.magnification = kk.config.magnification) &&
    decide (other.warmup_samples ≤ (kk.min_trimmed_length : ℤ))

/-- The geometry of test_config_srr and test_config_krisskross:
SRRConfig(10.0, 10.0, 0.5, warmup=10.0, subpixel_offsets=[[0,1],[0,2]]) with
pass count 2. -/
def cfgA : SRRConfig := mkSRRConfig 10 10 (1/2) 10 2 [(0, 1), (0, 2)]

/-- The geometry of test_data_krisskross and test_krisskross:
KrissKrossConfig(5, 10, 0.5, warmup=2.5), with the default subpixel offsets
(numerators 0 and 1 over denominator 2) and pass count 2. -/
def cfgB : SRRConfig := mkSRRConfig 5 10 (1/2) (5/2) 2 [(0, 2), (1, 2)]

/-- A candidate geometry constructed with warmup=100 (and dwell time 0.5),
whose warmup samples no layer of the test fusion can absorb. -/
def candB : SRRConfig := mkSRRConfig 5 10 (1/2) 100 2 [(0, 2), (1, 2)]

/-- The raw passes of test_data_krisskross: shapes (10,20) and (12,30). -/
def layersB : List Arr2 :=
  [{ rows := 10, cols := 20, entry := fun _ _ => 0 },
   { rows := 12, cols := 30, entry := fun _ _ => 0 }]

/-- The KrissKross laser of test_krisskross. -/
def kkB : KrissKross := { config := cfgB, data := { layers := layersB } }

/-- The invalid assignment of test_config_srr: the flat list [0, 1]. -/
def flat01 : PyVal := PyVal.list [PyVal.int 0, PyVal.int 1]

/-- The valid constructor argument [[0,1],[0,2]] as a Python value. -/
def pairs0102 : PyVal :=
  PyVal.list [PyVal.list [PyVal.int 0, PyVal.int 1],
    PyVal.list [PyVal.int 0, PyVal.int 2]]

/-- Modelled from the spec: a per-channel calibration, a stateless linear
transform of measured intensity (laserlib/calibration.py is missing from
src/; the exact coefficients play no role in the claims). -/
structure LaserCalibration where
  gradient : ℚ
  intercept : ℚ

/-- Modelled from the spec: calibration applies its linear transform to every
entry, producing a new array. -/
def LaserCalibration.calibrate (cal : LaserCalibration) (A : Arr2) : Arr2 :=
  { rows := A.rows, cols := A.cols,
    entry := fun i j => cal.gradient * A.entry i j + cal.intercept }

/-- From src/laserlib/data.py: a LaserData holds a data array and a
calibration. -/
structure LaserData where
  data : Arr2
  calibration : LaserCalibration

/-- The keyword arguments accepted by LaserData.get: an optional extent and
the calibrate flag (absent keywords are none and false, the defaults the
Python code reads back with kwargs.get). -/
structure GetKwargs where
  extent : Option (ℚ × ℚ × ℚ × ℚ)
  calibrate : Bool

/-- Truncation toward zero, the behaviour of Python int() on a float. -/
def pyInt (q : ℚ) : ℤ :=
  if q < 0 then -Int.floor (-q) else Int.floor q

/-- Normalisation of one Python slice endpoint for a sequence of the given
length: negative endpoints count from the end, and the result is clamped to
[0, len]. -/
def pySliceIdx (len : ℕ) (i : ℤ) : ℕ :=
  Nat.min len (if i < 0 then (i + len).toNat else i.toNat)

/-- The Python row slice A[a:b, :]. -/
def Arr2.slice_rows (A : Arr2) (a b : ℤ) : Arr2 :=
  let s := pySliceIdx A.rows a
  let e := pySliceIdx A.rows b
  { rows := e - s, cols := A.cols, entry := fun i j => A.entry (i + s) j }

/-- The Python column slice A[:, a:b]. -/
def Arr2.slice_cols (A : Arr2) (a b : ℤ) : Arr2 :=
  let s := pySliceIdx A.cols a
  let e := pySliceIdx A.cols b
  { rows := A.rows, cols := e - s, entry := fun i j => A.entry i (j + s) }

/-- From src/laserlib/data.py lines 20-35: LaserData.get. When an extent
keyword is present the data is cropped to it (pixel indices truncated from
the physical extent, rows counted from the bottom); when calibrate is true
the calibration is applied. The method assigns no attribute, so the returned
state is the receiver unchanged; the pair is (returned array, state). -/
def LaserData.get (ld : LaserData) (config : Config) (k : GetKwargs) :
    Arr2 × LaserData :=
  let d0 := ld.data
  let d1 :=
    match k.extent with
    | none => d0
    | some (x0, x1, y0, y1) =>
      let px := config.get_pixel_width
      let py := config.get_pixel_height
      let X0 := pyInt (x0 / px)
      let X1 := pyInt (x1 / px)
      let Y0 := pyInt (y0 / py)
      let Y1 := pyInt (y1 / py)
      let ymax : ℤ := (d0.rows : ℤ)
      (d0.slice_rows (ymax - Y1) (ymax - Y0)).slice_cols X0 X1
  let d2 := if k.calibrate then ld.calibration.calibrate d1 else d1
  (d2, ld)

/-- From src/io/npz.py lines 74-79: the index the collision loop stops at,
the least i such that name + str(i) is not yet a key (the loop always stops
within taken.length + 1 steps, because those candidate keys are distinct). -/
def fresh_index (taken : List String) (name : String) : ℕ :=
  ((List.range (taken.length + 1)).filter
    (fun i => !(taken.contains (name ++ toString i)))).headD 0

/-- From src/io/npz.py lines 74-79: the key a laser of the given name is
stored under, given the keys already taken. When the name is taken the code
runs name += f-string of name and the stop index, so the stored key is
name + name + str(i) even though the loop checked name + str(i). -/
def save_key (taken : List String) (name : String) : String :=
  if taken.contains name then
    name ++ (name ++ toString (fresh_index taken name))
  else name

/-- From src/io/npz.py lines 64-81: the successive keys of the archive
dictionary built by save, starting from the reserved version key; a repeated
key in this list is an overwriting dictionary assignment. -/
def save_keys (names : List String) : List String :=
  names.foldl (fun acc nm => acc ++ [save_key acc nm]) ["version"]

theorem asPair_isSome (x : PyVal) : (asPair x).isSome = isPair x := by
  cases x with
  | int z => rfl
  | list xs =>
    match xs with
    | [] => rfl
    | [a] => cases a <;> rfl
    | [a, b] => cases a <;> cases b <;> rfl
    | a :: b :: c :: rest => cases a <;> cases b <;> rfl

theorem asPairList_isSome (xs : List PyVal) :
    (asPairList xs).isSome = xs.all isPair := by
  induction xs with
  | nil => rfl
  | cons x xs ih =>
    rw [List.all_cons, ← asPair_isSome x, ← ih]
    cases hx : asPair x <;> cases hxs : asPairList xs <;>
      simp [asPairList, hx, hxs]

theorem asPairs_isSome (v : PyVal) : (asPairs v).isSome = isPairSeq v := by
  cases v with
  | int z => rfl
  | list xs => exact asPairList_isSome xs

theorem cfgA_warmup_samples : cfgA.warmup_samples = 20 := by
  show max 0 (round ((10 : ℚ) / (1 / 2))) = 20
  norm_num [round_eq]

theorem cfgB_warmup_toNat : cfgB.warmup_samples.toNat = 5 := by
  have h : cfgB.warmup_samples = 5 := by
    show max 0 (round ((5 / 2 : ℚ) / (1 / 2))) = 5
    norm_num [round_eq]
  rw [h]
  rfl

theorem candB_warmup_samples : candB.warmup_samples = 200 := by
  show max 0 (round ((100 : ℚ) / (1 / 2))) = 200
  norm_num [round_eq]

theorem align_rows_cfgB : (align_layers cfgB layersB).map Arr2.rows = [10, 25] := by
  unfold align_layers
  rw [cfgB_warmup_toNat]
  decide

theorem align_cols_cfgB : (align_layers cfgB layersB).map Arr2.cols = [15, 12] := by
  unfold align_layers
  rw [cfgB_warmup_toNat]
  decide

theorem kkStack_cfgB_rows : (kk_stack cfgB layersB).rows = 21 := by
  show natMinD ((align_layers cfgB layersB).map Arr2.rows) * cfgB.subpixel_size +
      maxOffsetNat cfgB.subpixel_offsets = 21
  rw [align_rows_cfgB]
  decide

theorem kkStack_cfgB_cols : (kk_stack cfgB layersB).cols = 25 := by
  show natMinD ((align_layers cfgB layersB).map Arr2.cols) * cfgB.subpixel_size +
      maxOffsetNat cfgB.subpixel_offsets = 25
  rw [align_cols_cfgB]
  decide

theorem kkB_min_trimmed : kkB.min_trimmed_length = 15 := by
  show natMinD (layersB.map
    (fun A => A.cols - kkB.config.warmup_samples.toNat)) = 15
  rw [show kkB.config.warmup_samples.toNat = 5 from cfgB_warmup_toNat]
  decide

/-- C1: when the layer argument is omitted, the fused pixel width and height
are both the spot size divided by the pass count (for the test geometry
SRRConfig(10,10,0.5) with pass count 2, both are 5.0); the claimed width
formula, base pixel width divided by pass count, is refuted separately. -/
theorem C1_fused_pixel_size :
    (∀ c : SRRConfig, c.get_pixel_width none = c.spotsize / c.magnification ∧
      c.get_pixel_height none = c.spotsize / c.magnification) ∧
    cfgA.get_pixel_width none = 5 ∧ cfgA.get_pixel_height none = 5 := by
  refine ⟨fun c => ⟨rfl, rfl⟩, ?_, ?_⟩
  · show (10 : ℚ) / 2 = 5
    norm_num
  · show (10 : ℚ) / 2 = 5
    norm_num

/-- C1 counterexample: for SRRConfig(10,10,0.5) with pass count 2 the fused
pixel width is 5.0, while the claimed formula scan_speed * dwell_time /
pass_count gives 5/2. -/
theorem C1_cex :
    cfgA.get_pixel_width none = 5 ∧
    cfgA.speed * cfgA.scantime / cfgA.magnification = 5 / 2 ∧
    (5 : ℚ) ≠ 5 / 2 := by
  refine ⟨?_, ?_, by norm_num⟩
  · show (10 : ℚ) / 2 = 5
    norm_num
  · show (10 : ℚ) * (1 / 2) / 2 = 5 / 2
    norm_num

/-- C2: the fused stack of passes (10,20) and (12,30) under
SRRConfig(5,10,0.5,warmup=2.5) has shape (21,25,2) and the flattened fusion
has shape (21,25); in general the fused grid is the minimum row/column count
over all trimmed-and-reoriented passes, scaled by the subpixel grid size and
extended by the largest subpixel offset. -/
theorem C2_fuse_shape :
    (∀ (c : SRRConfig) (ls : List Arr2),
      (kk_stack c ls).rows =
        natMinD ((align_layers c ls).map Arr2.rows) * c.subpixel_size +
          maxOffsetNat c.subpixel_offsets ∧
      (kk_stack c ls).cols =
        natMinD ((align_layers c ls).map Arr2.cols) * c.subpixel_size +
          maxOffsetNat c.subpixel_offsets ∧
      (kk_stack c ls).depth = ls.length ∧
      (kk_flat c ls).rows = (kk_stack c ls).rows ∧
      (kk_flat c ls).cols = (kk_stack c ls).cols) ∧
    (kk_stack cfgB layersB).rows = 21 ∧ (kk_stack cfgB layersB).cols = 25 ∧
    (kk_stack cfgB layersB).depth = 2 ∧
    (kk_flat cfgB layersB).rows = 21 ∧ (kk_flat cfgB layersB).cols = 25 := by
  refine ⟨fun c ls => ⟨rfl, rfl, ?_, rfl, rfl⟩,
    kkStack_cfgB_rows, kkStack_cfgB_cols, rfl,
    kkStack_cfgB_rows, kkStack_cfgB_cols⟩
  simp [kk_stack, subpixel_offset_expand, stack_layers, align_layers]

/-- C2 counterexample: for the test passes the trimmed-and-reoriented shapes
are (10,15) and (25,12), whose maxima are 25 rows and 15 columns, yet the
fused grid is 21 x 25: it is not the maximum row/column count over the
trimmed-and-reoriented passes. -/
theorem C2_cex :
    (kk_stack cfgB layersB).rows = 21 ∧ (kk_stack cfgB layersB).cols = 25 ∧
    natMaxD ((align_layers cfgB layersB).map Arr2.rows) = 25 ∧
    natMaxD ((align_layers cfgB layersB).map Arr2.cols) = 15 ∧
    ¬((21 : ℕ) = 25 ∧ (25 : ℕ) = 15) := by
  refine ⟨kkStack_cfgB_rows, kkStack_cfgB_cols, ?_, ?_, by decide⟩
  · rw [align_rows_cfgB]
    decide
  · rw [align_cols_cfgB]
    decide

/-- C3: when the layer argument is omitted, data_extent uses the fused pixel
sizes and shifts the origin by warmup_samples pixels along both axes; for
SRRConfig(10,10,0.5,warmup=10) with pass count 2, data_extent((10,20)) is
(100,200,100,150). The claimed shift along the scan axis only is refuted
separately. -/
theorem C3_fused_extent :
    (∀ (c : SRRConfig) (shape : ℕ × ℕ),
      c.data_extent shape none =
        ((c.warmup_samples : ℚ) * c.get_pixel_width none,
         (c.warmup_samples : ℚ) * c.get_pixel_width none +
           shape.2 * c.get_pixel_width none,
         (c.warmup_samples : ℚ) * c.get_pixel_height none,
         (c.warmup_samples : ℚ) * c.get_pixel_height none +
           shape.1 * c.get_pixel_height none)) ∧
    cfgA.data_extent (10, 20) none = (100, 200, 100, 150) := by
  refine ⟨fun c s => rfl, ?_⟩
  have h : cfgA.data_extent (10, 20) none =
      ((cfgA.warmup_samples : ℚ) * ((10 : ℚ) / 2),
       (cfgA.warmup_samples : ℚ) * ((10 : ℚ) / 2) + (20 : ℕ) * ((10 : ℚ) / 2),
       (cfgA.warmup_samples : ℚ) * ((10 : ℚ) / 2),
       (cfgA.warmup_samples : ℚ) * ((10 : ℚ) / 2) + (10 : ℕ) * ((10 : ℚ) / 2)) := rfl
  rw [h, cfgA_warmup_samples]
  norm_num

/-- C3 counterexample: the fused extent (100,200,100,150) of the test
geometry has a non-zero origin along both the x and the y axis, so the
warm-up shift is not applied along the scan axis only. -/
theorem C3_cex :
    cfgA.data_extent (10, 20) none = (100, 200, 100, 150) ∧
    (cfgA.data_extent (10, 20) none).1 ≠ 0 ∧
    (cfgA.data_extent (10, 20) none).2.2.1 ≠ 0 := by
  have h : cfgA.data_extent (10, 20) none =
      ((cfgA.warmup_samples : ℚ) * ((10 : ℚ) / 2),
       (cfgA.warmup_samples : ℚ) * ((10 : ℚ) / 2) + (20 : ℕ) * ((10 : ℚ) / 2),
       (cfgA.warmup_samples : ℚ) * ((10 : ℚ) / 2),
       (cfgA.warmup_samples : ℚ) * ((10 : ℚ) / 2) + (10 : ℕ) * ((10 : ℚ) / 2)) := rfl
  rw [h, cfgA_warmup_samples]
  norm_num

/-- C4: check_config_valid is a total boolean returning true iff the
candidate pass count equals the current one and the candidate warmup samples
do not exceed the minimum trimmed-layer length of the current layers; it
returns false for the candidate built with warmup=100 against the test
fusion. -/
theorem C4_check_config_valid :
    (∀ (kk : KrissKross) (other : SRRConfig),
      kk.check_config_valid other = true ↔
        (other.magnification = kk.config.magnification ∧
         other.warmup_samples ≤ (kk.min_trimmed_length : ℤ))) ∧
    kkB.check_config_valid candB = false := by
  constructor
  · intro kk other
    simp [KrissKross.check_config_valid]
  · have hne : ¬(candB.warmup_samples ≤ (kkB.min_trimmed_length : ℤ)) := by
      rw [candB_warmup_samples, kkB_min_trimmed]
      decide
    unfold KrissKross.check_config_valid
    rw [decide_eq_false hne, Bool.and_false]

/-- C5: per-layer pixel dimensions alternate with pass parity: even-indexed
layers use the base (width, height) and odd-indexed layers the swapped pair;
for SRRConfig(10,10,0.5) this gives 5, 10, 10, 5. -/
theorem C5_layer_pixel_parity :
    (∀ (c : SRRConfig) (k : ℕ),
      c.get_pixel_width (some (2 * k)) = c.speed * c.scantime ∧
      c.get_pixel_height (some (2 * k)) = c.spotsize ∧
      c.get_pixel_width (some (2 * k + 1)) = c.spotsize ∧
      c.get_pixel_height (some (2 * k + 1)) = c.speed * c.scantime) ∧
    cfgA.get_pixel_width (some 0) = 5 ∧ cfgA.get_pixel_height (some 0) = 10 ∧
    cfgA.get_pixel_width (some 1) = 10 ∧ cfgA.get_pixel_height (some 1) = 5 := by
  refine ⟨fun c k => ?_, ?_, rfl, rfl, ?_⟩
  · have h1 : (2 * k) % 2 = 0 := by omega
    have h2 : (2 * k + 1) % 2 = 1 := by omega
    simp [SRRConfig.get_pixel_width, SRRConfig.get_pixel_height, h1, h2,
      Config.get_pixel_width, Config.get_pixel_height]
  · show (10 : ℚ) * (1 / 2) = 5
    norm_num
  · show (10 : ℚ) * (1 / 2) = 5
    norm_num

/-- C6: warmup_samples is round(warmup_time / dwell_time) clamped to be
non-negative, hence always non-negative; with warmup 10.0 and dwell time 0.5
it is 20. -/
theorem C6_warmup_samples :
    (∀ c : SRRConfig,
      c.warmup_samples = max 0 (round (c.warmup / c.scantime)) ∧
      0 ≤ c.warmup_samples) ∧
    cfgA.warmup_samples = 20 := by
  exact ⟨fun c => ⟨rfl, le_max_left 0 _⟩, cfgA_warmup_samples⟩

/-- C7: assigning subpixel_offsets succeeds exactly on a sequence of
2-element integer pairs and fails with a validation error otherwise; in
particular the flat list [0, 1] is rejected and the pair list [[0,1],[0,2]]
is accepted. -/
theorem C7_subpixel_offsets_validation :
    (∀ (c : SRRConfig) (v : PyVal),
      (c.subpixel_offsets_set v).isOk = isPairSeq v) ∧
    (cfgA.subpixel_offsets_set flat01).isOk = false ∧
    (cfgA.subpixel_offsets_set pairs0102).isOk = true := by
  refine ⟨fun c v => ?_, rfl, rfl⟩
  rw [← asPairs_isSome v]
  cases h : asPairs v <;> simp only [SRRConfig.subpixel_offsets_set, h] <;> rfl

/-- C8: set_equal_subpixel_offsets n installs the n evenly spread offsets
0..n-1 over denominator n (the stride form of [i, i]), making the subpixel
grid size n while subpixels_per_pixel stays equal to the pass count; for the
test geometry, grid size 4 and subpixels_per_pixel 2. -/
theorem C8_set_equal_subpixel_offsets :
    (∀ (c : SRRConfig) (n : ℕ),
      (c.set_equal_subpixel_offsets n).subpixel_size = n ∧
      (c.set_equal_subpixel_offsets n).subpixel_offsets =
        (List.range n).map Int.ofNat ∧
      (c.set_equal_subpixel_offsets n).subpixels_per_pixel = c.magnification) ∧
    (cfgA.set_equal_subpixel_offsets 4).subpixel_offsets = [0, 1, 2, 3] ∧
    (cfgA.set_equal_subpixel_offsets 4).subpixel_size = 4 ∧
    (cfgA.set_equal_subpixel_offsets 4).subpixels_per_pixel = 2 ∧
    cfgA.magnification = 2 := by
  exact ⟨fun c n => ⟨rfl, rfl, rfl⟩, by decide, rfl, rfl, rfl⟩

/-- C9: saving three lasers all named A produces the archive keys version, A,
AA0, AA0: the collision loop checks availability of name + str(i) but stores
under name + name + str(i), so the third laser reuses the key AA0 and
overwrites the second, refuting key distinctness. -/
theorem C9_save_key_collision :
    save_keys ["A", "A", "A"] = ["version", "A", "AA0", "AA0"] ∧
    ¬(save_keys ["A", "A", "A"]).Nodup := by decide

/-- C10: LaserData.get never mutates the stored data or calibration (the
returned state equals the receiver for every keyword combination), and with
no extent keyword and calibrate false it returns the stored array unchanged. -/
theorem C10_laserdata_get :
    (∀ (ld : LaserData) (c : Config) (k : GetKwargs), (ld.get c k).2 = ld) ∧
    (∀ (ld : LaserData) (c : Config),
      (ld.get c { extent := none, calibrate := false }).1 = ld.data) := by
  exact ⟨fun _ _ _ => rfl, fun _ _ => rfl⟩

end Laserlib
